import Mathlib

/-!
Shallow embedding of the barrel/shopify-deployments script (`src/index.js`).

The script inspects the active git branch, lists the store's theme
artifacts, and then either deploys to an existing staging theme,
duplicates a base theme into a new one and deploys to it, or (on
`master`) backs up / deploys to the published theme.  We embed:

* the string/regex helpers the script uses (`String.prototype.split`
  on `" - "`, substring tests via `indexOf`, the case-insensitive
  branch-name regexes, the `/.*[(](.*)[)]/` commit-token extraction);
* the theme data model (`id`, `name`, `role`, `updated_at`);
* `isAlreadyDeployedThemeForBranch`, `getBase`,
  `duplicateCurrentBase` and the main promise chain's dispatch,
  as pure functions producing an ordered trace of external calls
  together with an outcome (`done`, fatal `process.exit`, or an
  uncaught exception / rejected promise);
* the `exec` callback semantics of the `git branch` and
  `git fetch --all` / `git cherry -v` steps.

Timestamps are modelled as integer milliseconds since the epoch
(`moment` comparisons on ISO strings are order-isomorphic to this).
-/

set_option autoImplicit false

namespace ShopifyDeploy

/-- Equality of `Except` results is decidable; used to evaluate the
embedded functions on concrete inputs. -/
instance instDecEqExcept {ε α : Type} [DecidableEq ε] [DecidableEq α] :
    DecidableEq (Except ε α) := fun
  | .error e, .error f =>
    if h : e = f then .isTrue (by rw [h])
    else .isFalse (by intro hh; cases hh; exact h rfl)
  | .error _, .ok _ => .isFalse (by intro h; cases h)
  | .ok _, .error _ => .isFalse (by intro h; cases h)
  | .ok a, .ok b =>
    if h : a = b then .isTrue (by rw [h])
    else .isFalse (by intro hh; cases hh; exact h rfl)

/-! ## String helpers (JS `indexOf` substring search, `toLowerCase`, `split`) -/

/-- Does the needle occur at the head of the haystack? -/
def matchesAt : List Char → List Char → Bool
  | [], _ => true
  | _ :: _, [] => false
  | n :: ns, h :: hs => n == h && matchesAt ns hs

/-- Does the needle occur anywhere in the haystack?  This is JS
`~hay.indexOf(needle)` viewed as a Boolean. -/
def containsSeq (needle : List Char) : List Char → Bool
  | [] => matchesAt needle []
  | c :: cs => matchesAt needle (c :: cs) || containsSeq needle cs

/-- JS `~hay.indexOf(needle)` (substring containment). -/
def strContains (hay needle : String) : Bool :=
  containsSeq needle.data hay.data

/-- ASCII lowercasing of a string (JS `toLowerCase` on the ASCII
names involved here). -/
def lowerStr (s : String) : String :=
  String.mk (s.data.map Char.toLower)

/-- Case-insensitive containment: models a `/needle/i.test(hay)` regex
test where `needle` is a plain lowercase word. -/
def strContainsCI (hay needle : String) : Bool :=
  strContains (lowerStr hay) needle

/-- `/feature|hotfix|bugfix|develop/i.test(branch)` (src/index.js:173). -/
def reFeatureEtc (b : String) : Bool :=
  strContainsCI b "feature" || strContainsCI b "hotfix" ||
  strContainsCI b "bugfix" || strContainsCI b "develop"

/-- `/master/i.test(branch)` (src/index.js:195,199). -/
def reMaster (b : String) : Bool :=
  strContainsCI b "master"

/-- `/staging|stage/i.test(env)` (src/index.js:231). -/
def reStaging (s : String) : Bool :=
  strContainsCI s "staging" || strContainsCI s "stage"

/-- `/(live|stage)/i.test(env)` (src/index.js:280,286). -/
def reLiveStage (s : String) : Bool :=
  strContainsCI s "live" || strContainsCI s "stage"

/-- The separator `" - "` used by `name.split(' - ')`. -/
def sepChars : List Char := [' ', '-', ' ']

/-- JS `name.split(' - ')` over the character list: left-to-right,
non-overlapping occurrences of the three-character separator. -/
def splitDash : List Char → List (List Char)
  | [] => [[]]
  | ' ' :: '-' :: ' ' :: rest => [] :: splitDash rest
  | c :: rest =>
    match splitDash rest with
    | [] => [[c]]
    | chunk :: chunks => (c :: chunk) :: chunks

/-- `name.split(' - ')` as a list of strings. -/
def nameParts (name : String) : List String :=
  (splitDash name.data).map String.mk

/-! ## Theme-name parsing (src/index.js:220-229, 268, 285) -/

/-- The destructuring `let [env = 'DEV'] = name.split(' - ')`: the
first segment (`split` never yields an empty array, so the `'DEV'`
default can only fire on an impossible empty result). -/
def themeEnvTag (name : String) : String :=
  (nameParts name).headD "DEV"

/-- The destructuring `let [_, commit = ''] = name.split(' - ')`: the
second segment, defaulting to the empty string when the name has no
`" - "` separator. -/
def themeCommitRaw (name : String) : String :=
  (nameParts name).getD 1 ""

/-- Splits a character list at the LAST occurrence of `c`:
`cs = pre ++ [c] ++ post`. -/
def breakLast (c : Char) : List Char → Option (List Char × List Char)
  | [] => none
  | x :: xs =>
    match breakLast c xs with
    | some (pre, post) => some (x :: pre, post)
    | none => if x == c then some ([], xs) else none

/-- Group 1 of the backtracking regex `/.*[(](.*)[)]/`: the text
between the last `'('` that still has a `')'` after it and the last
`')'` of the string; `none` when the regex does not match (no `'('`
followed by a later `')'`). -/
def extractParenGroup (s : String) : Option String :=
  match breakLast ')' s.data with
  | none => none
  | some (pre, _) =>
    match breakLast '(' pre with
    | none => none
    | some (_, grp) => some (String.mk grp)

/-- How the script halts abnormally. -/
inductive Halt where
  /-- `process.exit()` from `getBase` (src/index.js:294). -/
  | exitFatal
  /-- an uncaught exception / rejected promise (e.g. `null[1]` when the
  commit-token regex fails to match, or a missing `main`-role theme). -/
  | crashed
deriving DecidableEq

/-- The commit token embedded in a theme name (src/index.js:221-229):
the second `" - "` segment, re-extracted from inside parentheses when
it contains `'('`.  A `'('` with no matching later `')'` makes
`commit.match(...)[1]` throw (`.match` returns `null`). -/
def themeCommitToken (name : String) : Except Halt String :=
  let commit := themeCommitRaw name
  if commit.data.contains '(' then
    match extractParenGroup commit with
    | some g => Except.ok g
    | none => Except.error Halt.crashed
  else Except.ok commit

/-! ## Data model -/

/-- A JSON id value: the `themes.json` payload carries numbers, the
`BASE_THEME` environment variable a string.  `getBase` compares them
after coercing both sides to strings (`'' + id === '' + BASE_THEME`). -/
inductive JsId where
  | num (n : Int)
  | str (s : String)
deriving DecidableEq

/-- JS string coercion `'' + id`. -/
def JsId.jsStr : JsId → String
  | .num n => toString n
  | .str s => s

/-- A remote theme artifact (`{id, name, role, updated_at}`), with the
timestamp in epoch milliseconds. -/
structure Theme where
  id : JsId
  name : String
  role : String
  updatedAt : Int
deriving DecidableEq

/-- Seven days in milliseconds (`moment().subtract('7', 'Days')`). -/
def sevenDaysMs : Int := 7 * 24 * 60 * 60 * 1000

/-! ## `isAlreadyDeployedThemeForBranch` (src/index.js:219-255) -/

/-- The body of the `themes.reduce` callback for a single theme, run
only while no theme has been found yet: extract the commit token
(possible crash), require a `staging`/`stage` environment tag, require
the token to occur in some commit message
(`commits.find(str => ~str.indexOf(commit))`), and on `develop`
(`noLessThan7DaysOld`) reject themes last updated strictly before
seven days ago. -/
def themeStep (commits : List String) (noLessThan7DaysOld : Bool) (now : Int)
    (t : Theme) : Except Halt Bool :=
  match themeCommitToken t.name with
  | .error s => .error s
  | .ok commit =>
    if !reStaging (themeEnvTag t.name) then .ok false
    else if !(commits.any fun str => strContains str commit) then .ok false
    else if noLessThan7DaysOld then
      if t.updatedAt < now - sevenDaysMs then .ok false else .ok true
    else .ok true

/-- The staging-theme search: first theme (in list order) accepted by
`themeStep`.  The JS source also receives the branch name but never
uses it; the `reduce` keeps the first found theme and skips the crash
sites of later elements once one is found. -/
def isAlreadyDeployedThemeForBranch (themes : List Theme) (commits : List String)
    (noLessThan7DaysOld : Bool) (now : Int) : Except Halt (Option Theme) :=
  match themes with
  | [] => .ok none
  | t :: ts =>
    match themeStep commits noLessThan7DaysOld now t with
    | .error s => .error s
    | .ok true => .ok (some t)
    | .ok false => isAlreadyDeployedThemeForBranch ts commits noLessThan7DaysOld now

/-! ## `getBase` (src/index.js:266-298) -/

/-- Base-theme selection.  The published (`role === 'main'`) theme is
looked up and its name split first, so a list with no `main`-role
theme crashes (`publishedTheme.name` on `undefined`) even when
`BASE_THEME` is set.  With `BASE_THEME` set the id lookup's result is
returned as-is (`undefined` — here `none` — when absent) — as a RAW
value, not a promise, unlike every other branch; both call sites
immediately `.then` that return and crash (see
`duplicateCurrentBase` and `mainDispatch`).  Otherwise:
the published theme when `forcePublished` or when its tag is
live/stage; else the first live/stage-tagged theme; else
`process.exit()`. -/
def getBase (baseTheme : Option JsId) (themes : List Theme)
    (forcePublished : Bool) : Except Halt (Option Theme) :=
  match themes.find? fun t => t.role == "main" with
  | none => .error .crashed
  | some publishedTheme =>
    match baseTheme with
    | some bt => .ok (themes.find? fun t => t.id.jsStr == bt.jsStr)
    | none =>
      if forcePublished then .ok (some publishedTheme)
      else if reLiveStage (themeEnvTag publishedTheme.name) then .ok (some publishedTheme)
      else
        match themes.find? fun t => reLiveStage (themeEnvTag t.name) with
        | some u => .ok (some u)
        | none => .error .exitFatal

/-! ## Effect-trace semantics of the main promise chain -/

/-- Where `buildAndDeploy` is pointed.  Path A passes a theme id (the
found theme's `.id`, or the id read back from `tmp/config.yml`); the
`master`/`deploy` arm passes the whole resolved `getBase` value — the
theme OBJECT.  The `undef` target (a `buildAndDeploy(undefined)` call)
would require `getBase` to resolve `undefined`, which only the
`BASE_THEME` branch could produce — and that branch's raw non-promise
return makes the caller's `.then` throw first, so `undef` is kept only
to state the dead arm of the dispatch. -/
inductive DeployTarget where
  | id (j : JsId)
  | obj (t : Theme)
  | undef
deriving DecidableEq

/-- The external calls the run can make, in order of occurrence. -/
inductive ExtCall where
  /-- pre-run `rm -r tmp` (src/index.js:58). -/
  | rmTmpPre
  /-- `fs.mkdirSync(TMP_DIR)` (src/index.js:69). -/
  | mkTmp
  /-- `themeKit.command('download', ...)` of the given theme id. -/
  | download (j : JsId)
  /-- `themeKit.command('new', ...)`. -/
  | themeNew
  /-- the `brrl` build-and-deploy call. -/
  | deploy (tgt : DeployTarget)
  /-- post-run `rm -r tmp` cleanup (src/index.js:210). -/
  | rmTmpPost
deriving DecidableEq

/-- How a whole run ends. -/
inductive Outcome where
  | done
  | exitFatal
  | crashed
deriving DecidableEq

/-- The run-mode configuration read from the environment. -/
structure Config where
  /-- `STAGE` (default `"backup"`). -/
  stage : String
  /-- `IS_QUICK_TEST` truthiness. -/
  isQuickTest : Bool
  /-- `BASE_THEME` (absent/empty means `false`). -/
  baseTheme : Option JsId
deriving DecidableEq

/-- The run's external inputs once the three-way `Promise.all` join
and the git steps have delivered their values. -/
structure RunInput where
  /-- the active branch name. -/
  branch : String
  /-- the fetched theme list, sorted most-recently-updated first. -/
  themes : List Theme
  /-- the parsed `git cherry` commit messages. -/
  commits : List String
  /-- current time, epoch milliseconds. -/
  now : Int
  /-- did `<cwd>/tmp` exist when the run started? -/
  tmpExisted : Bool
  /-- the `development.theme_id` read from `tmp/config.yml` after the
  `new` step; `none` when that read/parse throws. -/
  newThemeId : Option JsId
deriving DecidableEq

/-- `duplicateCurrentBase` (src/index.js:257-264): `getBase`, then
`downloadTheme` (skipped in quick-test mode), then
`uploadBaseToNewTheme` (the `new` command is skipped in quick-test
mode but `tmp/config.yml` is read back regardless).  Returns the
ordered external calls made and the new theme id or the halt.

When `BASE_THEME` is set, `getBase` returns the id lookup's result as
a RAW value, not a promise (src/index.js:271, unlike every sibling
branch's `Promise.resolve`), and the caller immediately invokes
`.then` on it (src/index.js:258): that `.then` access throws a
TypeError inside the chain's handler, so the run crashes before any
download/create/deploy call — in quick-test mode too, since the throw
precedes every `IS_QUICK_TEST` check.  (The `base?` = `none` arm below
is therefore unreachable: without the override `getBase` only ever
resolves an actual theme.) -/
def duplicateCurrentBase (cfg : Config) (inp : RunInput)
    (forcePublished : Bool) : List ExtCall × Except Halt JsId :=
  match getBase cfg.baseTheme inp.themes forcePublished with
  | .error s => ([], .error s)
  | .ok base? =>
    match cfg.baseTheme with
    | some _ => ([], .error .crashed)
    | none =>
      if cfg.isQuickTest then
        match inp.newThemeId with
        | some nid => ([], .ok nid)
        | none => ([], .error .crashed)
      else
        match base? with
        | none => ([], .error .crashed)
        | some b =>
          match inp.newThemeId with
          | some nid => ([.download b.id, .themeNew], .ok nid)
          | none => ([.download b.id, .themeNew], .error .crashed)

/-- The main routine's dispatch (src/index.js:154-203).  Path A for
branches matching `/feature|hotfix|bugfix|develop/i` (the freshness
flag is the case-SENSITIVE `/develop/.test(branch)`); Path B for
`master` with `STAGE` `backup` (duplicate, no deploy) or `deploy`
(deploy to the raw `getBase` value, no duplication); otherwise no
action.

In the `deploy` arm the source chains
`getBase(themes, true).then(themeID => buildAndDeploy(themeID))`
(src/index.js:200): with `BASE_THEME` set, `getBase`'s return is a
raw value, not a promise, and the `.then` access throws a TypeError —
the run crashes before any deploy call.  (The `.ok none` /
`deploy .undef` arm below is consequently unreachable: without the
override `getBase` only ever resolves an actual theme.) -/
def mainDispatch (cfg : Config) (inp : RunInput) : List ExtCall × Except Halt Unit :=
  if reFeatureEtc inp.branch then
    match isAlreadyDeployedThemeForBranch inp.themes inp.commits
        (strContains inp.branch "develop") inp.now with
    | .error s => ([], .error s)
    | .ok (some t) => ([.deploy (.id t.id)], .ok ())
    | .ok none =>
      match duplicateCurrentBase cfg inp false with
      | (es, .error s) => (es, .error s)
      | (es, .ok nid) => (es ++ [.deploy (.id nid)], .ok ())
  else if reMaster inp.branch && (cfg.stage == "backup") then
    match duplicateCurrentBase cfg inp true with
    | (es, .error s) => (es, .error s)
    | (es, .ok _) => (es, .ok ())
  else if reMaster inp.branch && (cfg.stage == "deploy") then
    match getBase cfg.baseTheme inp.themes true with
    | .error s => ([], .error s)
    | .ok r =>
      match cfg.baseTheme with
      | some _ => ([], .error .crashed)
      | none =>
        match r with
        | some t => ([.deploy (.obj t)], .ok ())
        | none => ([.deploy .undef], .ok ())
  else ([], .ok ())

/-- The tmp-directory preparation (src/index.js:55-73): remove a
pre-existing `tmp` unless quick-test, then `mkdirSync` unless
quick-test. -/
def prepCalls (cfg : Config) (inp : RunInput) : List ExtCall :=
  (if inp.tmpExisted && !cfg.isQuickTest then [ExtCall.rmTmpPre] else []) ++
  (if !cfg.isQuickTest then [ExtCall.mkTmp] else [])

/-- The whole run after the join: preparation, then the dispatch, then
the cleanup `rm -r tmp` — which is only chained after the main routine
resolves, so a crash or `process.exit` bypasses it.  In quick-test
mode with no pre-existing `tmp`, `process.chdir(TMP_DIR)` throws
(nothing created the directory). -/
def run (cfg : Config) (inp : RunInput) : List ExtCall × Outcome :=
  if cfg.isQuickTest && !inp.tmpExisted then (prepCalls cfg inp, .crashed)
  else
    match mainDispatch cfg inp with
    | (es, .error .exitFatal) => (prepCalls cfg inp ++ es, .exitFatal)
    | (es, .error .crashed) => (prepCalls cfg inp ++ es, .crashed)
    | (es, .ok _) =>
      (prepCalls cfg inp ++ es ++
        (if cfg.isQuickTest then [] else [ExtCall.rmTmpPost]), .done)

/-- The external calls that quick-test mode suppresses: the theme
download, the new-artifact creation, and both scratch-directory
deletions. -/
def isQuickSkippedCall : ExtCall → Bool
  | .download _ => true
  | .themeNew => true
  | .rmTmpPre => true
  | .rmTmpPost => true
  | _ => false

/-! ## `exec` callback semantics of the git steps -/

/-- Splits a character list on a single separator character. -/
def splitOnChar (sep : Char) : List Char → List (List Char)
  | [] => [[]]
  | c :: rest =>
    if c == sep then [] :: splitOnChar sep rest
    else
      match splitOnChar sep rest with
      | [] => [[c]]
      | chunk :: chunks => (c :: chunk) :: chunks

/-- JS `String.prototype.trim` on a character list. -/
def trimChars (cs : List Char) : List Char :=
  (((cs.dropWhile Char.isWhitespace).reverse).dropWhile Char.isWhitespace).reverse

/-- `line.replace('* ', '')`: removes the first occurrence of `"* "`. -/
def replaceFirstStar : List Char → List Char
  | [] => []
  | '*' :: ' ' :: rest => rest
  | c :: rest => c :: replaceFirstStar rest

/-- `commit.replace(/[+-] ?/, '')`: removes the first `'+'` or `'-'`
together with one optional following space. -/
def stripCherryMarker : List Char → List Char
  | [] => []
  | c :: rest =>
    if c == '+' || c == '-' then
      match rest with
      | ' ' :: rest2 => rest2
      | _ => rest
    else c :: stripCherryMarker rest

/-- Parsing of `git branch` stdout (src/index.js:88-98): the first
line containing `'*'`, with the first `"* "` removed and whitespace
trimmed; `undefined` (here `none`) when no line matches. -/
def parseActiveBranch (stdout : String) : Option String :=
  ((splitOnChar '\n' stdout.data).find? fun l => l.contains '*').map
    fun l => String.mk (trimChars (replaceFirstStar l))

/-- Parsing of `git cherry -v` stdout (src/index.js:142-147): lines,
diff marker stripped, trimmed, empties dropped. -/
def parseCherryOutput (stdout : String) : List String :=
  (((splitOnChar '\n' stdout.data).map fun l =>
    trimChars (stripCherryMarker l)).filter fun l => !l.isEmpty).map String.mk

/-- The `git branch` promise (src/index.js:81-102): the `exec`
callback calls `reject(err)` when the command failed — and, lacking a
`return`, still runs `resolve`, but the first settlement wins, so the
promise rejects carrying the error. -/
def gitBranchResult (err : Option String) (stdout : String) :
    Except String (Option String) :=
  match err with
  | some e => .error e
  | none => .ok (parseActiveBranch stdout)

/-- The `git fetch --all` / `git cherry -v` promise
(src/index.js:133-152): a fetch failure rejects (first settlement
wins); the nested `git cherry` callback, however, never inspects its
`err` argument — it parses whatever stdout it got and resolves, so a
cherry failure is swallowed into a commit list parsed from (typically
empty) stdout. -/
def gitFetchCherryResult (fetchErr : Option String) (_cherryErr : Option String)
    (cherryStdout : String) : Except String (List String) :=
  match fetchErr with
  | some e => .error e
  | none => .ok (parseCherryOutput cherryStdout)

/-! ## Helper lemmas -/

theorem string_mk_data (s : String) : String.mk s.data = s := by
  cases s
  rfl

/-- The empty needle is a substring of every string (`''.indexOf` is `0`). -/
theorem containsSeq_nil_needle (cs : List Char) : containsSeq [] cs = true := by
  cases cs <;> simp [containsSeq, matchesAt]

/-- JS `str.indexOf('')` is `0`, so the empty commit token matches every
commit message. -/
theorem strContains_empty (s : String) : strContains s "" = true := by
  have h : ("" : String).data = [] := rfl
  rw [strContains, h]
  exact containsSeq_nil_needle s.data

/-- A character list with no occurrence of `" - "` splits into itself. -/
theorem splitDash_no_sep (cs : List Char) (h : containsSeq sepChars cs = false) :
    splitDash cs = [cs] := by
  induction cs using splitDash.induct with
  | case1 => rfl
  | case2 rest ih =>
    exfalso
    simp [containsSeq, sepChars, matchesAt] at h
  | case3 c rest hne hnil ih =>
    rw [containsSeq, Bool.or_eq_false_iff] at h
    rw [ih h.2] at hnil
    cases hnil
  | case4 c rest hne chunk chunks heq ih =>
    rw [containsSeq, Bool.or_eq_false_iff] at h
    rw [splitDash.eq_3 c rest hne, ih h.2]

/-- A name with no `" - "` separator is a single split segment. -/
theorem nameParts_no_sep (name : String) (h : strContains name " - " = false) :
    nameParts name = [name] := by
  have hsep : (" - " : String).data = sepChars := rfl
  rw [strContains, hsep] at h
  rw [nameParts, splitDash_no_sep name.data h]
  simp [string_mk_data]

/-- Without a separator the environment tag is the whole name. -/
theorem themeEnvTag_no_sep (name : String) (h : strContains name " - " = false) :
    themeEnvTag name = name := by
  rw [themeEnvTag, nameParts_no_sep name h]
  rfl

/-- Without a separator the raw commit segment defaults to `''`. -/
theorem themeCommitRaw_no_sep (name : String) (h : strContains name " - " = false) :
    themeCommitRaw name = "" := by
  rw [themeCommitRaw, nameParts_no_sep name h]
  rfl

/-- Without a separator the extracted commit token is `''`. -/
theorem themeCommitToken_no_sep (name : String) (h : strContains name " - " = false) :
    themeCommitToken name = .ok "" := by
  rw [themeCommitToken, themeCommitRaw_no_sep name h]
  rfl

/-- In quick-test mode duplication makes no external calls at all. -/
theorem duplicateCurrentBase_quick_calls (cfg : Config) (inp : RunInput) (f : Bool)
    (hq : cfg.isQuickTest = true) : (duplicateCurrentBase cfg inp f).1 = [] := by
  unfold duplicateCurrentBase
  split
  · rfl
  · split
    · rfl
    · rw [hq]
      simp only [if_true]
      split <;> rfl

/-- In quick-test mode prep makes no external calls. -/
theorem prepCalls_quick (cfg : Config) (inp : RunInput)
    (hq : cfg.isQuickTest = true) : prepCalls cfg inp = [] := by
  unfold prepCalls
  rw [hq]
  simp

/-- In quick-test mode the dispatch's trace contains none of the
quick-suppressed calls (at most `deploy`s remain). -/
theorem mainDispatch_quick_calls (cfg : Config) (inp : RunInput)
    (hq : cfg.isQuickTest = true) :
    (mainDispatch cfg inp).1.filter isQuickSkippedCall = [] := by
  rcases hdf : duplicateCurrentBase cfg inp false with ⟨es0, r0⟩
  rcases hdt : duplicateCurrentBase cfg inp true with ⟨es1, r1⟩
  have he0 : es0 = [] := by
    have h := duplicateCurrentBase_quick_calls cfg inp false hq
    rw [hdf] at h
    exact h
  have he1 : es1 = [] := by
    have h := duplicateCurrentBase_quick_calls cfg inp true hq
    rw [hdt] at h
    exact h
  subst he0
  subst he1
  unfold mainDispatch
  rw [hdf, hdt]
  split
  · split
    · rfl
    · rfl
    · rcases r0 with s0 | n0 <;> rfl
  · split
    · rcases r1 with s1 | n1 <;> rfl
    · split
      · split
        · rfl
        · split
          · rfl
          · split <;> rfl
      · rfl

/-- In quick-test mode the whole run's trace contains none of the
quick-suppressed calls. -/
theorem run_quick_calls (cfg : Config) (inp : RunInput)
    (hq : cfg.isQuickTest = true) :
    (run cfg inp).1.filter isQuickSkippedCall = [] := by
  rcases hm : mainDispatch cfg inp with ⟨es, r⟩
  have he : es.filter isQuickSkippedCall = [] := by
    have h := mainDispatch_quick_calls cfg inp hq
    rw [hm] at h
    exact h
  unfold run
  rw [hm, hq, prepCalls_quick cfg inp hq]
  cases htmp : inp.tmpExisted
  · simp
  · rcases r with s | u
    · cases s <;> simp [he]
    · simp [List.filter_append, he]

/-! ## Claim theorems -/

/-- C3: with no explicit base id and `forcePublished` unset, when the
published (`main`-role) artifact's environment tag is neither live nor
stage, `getBase` returns the first artifact in the given
(most-recent-first) order whose tag is live or stage — never the
published artifact — and on the list
`[{role:"main", name:"DEV - x"}, {role:"other", name:"STAGE - y"}]`
it returns the `STAGE - y` artifact. -/
theorem C3_base_fallback_selection
    (themes : List Theme) (m u : Theme)
    (hm : themes.find? (fun t => t.role == "main") = some m)
    (henv : reLiveStage (themeEnvTag m.name) = false)
    (hu : themes.find? (fun t => reLiveStage (themeEnvTag t.name)) = some u) :
    getBase none themes false = .ok (some u) ∧ u ≠ m ∧
    getBase none [⟨.num 1, "DEV - x", "main", 0⟩, ⟨.num 2, "STAGE - y", "other", 0⟩] false =
      .ok (some ⟨.num 2, "STAGE - y", "other", 0⟩) := by
  refine ⟨?_, ?_, by decide⟩
  · unfold getBase
    rw [hm]
    simp [henv, hu]
  · intro hum
    have hp := List.find?_some hu
    rw [hum] at hp
    have hp2 : reLiveStage (themeEnvTag m.name) = true := hp
    rw [henv] at hp2
    cases hp2

/-- Witness for C3: the general fallback applied to the spec's
two-theme example. -/
theorem C3_base_fallback_selection_witness :
    getBase none [⟨.num 1, "DEV - x", "main", 0⟩, ⟨.num 2, "STAGE - y", "other", 0⟩] false =
      .ok (some ⟨.num 2, "STAGE - y", "other", 0⟩) ∧
    (⟨.num 2, "STAGE - y", "other", 0⟩ : Theme) ≠ ⟨.num 1, "DEV - x", "main", 0⟩ := by
  have h := C3_base_fallback_selection
    [⟨.num 1, "DEV - x", "main", 0⟩, ⟨.num 2, "STAGE - y", "other", 0⟩]
    ⟨.num 1, "DEV - x", "main", 0⟩ ⟨.num 2, "STAGE - y", "other", 0⟩
    (by decide) (by decide) (by decide)
  exact ⟨h.1, h.2.1⟩

/-- C4: with the `BASE_THEME` override configured and an artifact with
that id in the list, `getBase` returns that artifact whatever its role
or tag and whatever `forcePublished` is; ids are compared after string
coercion, so number/string mismatches still match.  (Per the data
model a `main`-role published artifact exists; without one the source
crashes on `publishedTheme.name` before the override is consulted.) -/
theorem C4_base_theme_override
    (themes : List Theme) (bt : JsId) (t : Theme) (force : Bool)
    (hm : (themes.find? fun th => th.role == "main").isSome = true)
    (hfind : (themes.find? fun th => th.id.jsStr == bt.jsStr) = some t) :
    getBase (some bt) themes force = .ok (some t) := by
  obtain ⟨m, hm2⟩ := Option.isSome_iff_exists.mp hm
  unfold getBase
  rw [hm2]
  simp only [hfind]

/-- Witness for C4: a numeric list id matched by a string override,
and a string list id matched by a numeric override, each ignoring role
and tag. -/
theorem C4_base_theme_override_witness :
    getBase (some (.str "123"))
      [⟨.num 5, "DEV - p", "main", 0⟩, ⟨.num 123, "X - q", "other", 3⟩] true =
      .ok (some ⟨.num 123, "X - q", "other", 3⟩) ∧
    getBase (some (.num 123))
      [⟨.str "123", "LIVE - r", "other", 1⟩, ⟨.num 6, "DEV - s", "main", 2⟩] false =
      .ok (some ⟨.str "123", "LIVE - r", "other", 1⟩) :=
  ⟨C4_base_theme_override _ _ _ _ (by decide) (by decide),
   C4_base_theme_override _ _ _ _ (by decide) (by decide)⟩

/-- C5 counterexample: the name `"STAGE - fix-bug"` contains no
parenthesized segment, yet its extracted commit token is `"fix-bug"`,
not the empty string — the token only defaults to `""` when the name
has no `" - "` separator at all. -/
theorem C5_counterexample :
    ("STAGE - fix-bug").data.contains '(' = false ∧
    ("STAGE - fix-bug").data.contains ')' = false ∧
    themeCommitToken "STAGE - fix-bug" = .ok "fix-bug" ∧
    (Except.ok "fix-bug" : Except Halt String) ≠ .ok "" := by
  decide

/-- C5 (amended): `"STAGE - fix-bug (abc123)"` parses to environment
tag `STAGE` and commit token `abc123`; and every name containing no
`" - "` separator yields the empty commit token (a name WITH a second
segment but no parentheses instead yields that segment verbatim — see
the counterexample). -/
theorem C5_name_parsing (name : String)
    (h : strContains name " - " = false) :
    themeEnvTag "STAGE - fix-bug (abc123)" = "STAGE" ∧
    themeCommitToken "STAGE - fix-bug (abc123)" = .ok "abc123" ∧
    themeCommitToken name = .ok "" :=
  ⟨by decide, by decide, themeCommitToken_no_sep name h⟩

/-- Witness for C5: the separator-free name `"STAGE"` yields the empty
token. -/
theorem C5_name_parsing_witness :
    themeEnvTag "STAGE - fix-bug (abc123)" = "STAGE" ∧
    themeCommitToken "STAGE - fix-bug (abc123)" = .ok "abc123" ∧
    themeCommitToken "STAGE" = .ok "" :=
  C5_name_parsing "STAGE" (by decide)

/-- C6 (code bug in the source): `git branch` and `git fetch --all`
failures reject the operation carrying the underlying error, but the
nested `git cherry -v` callback never inspects its `err` argument: a
non-zero cherry exit with empty stdout is swallowed and resolves
successfully with an empty commit list. -/
theorem C6_git_error_propagation :
    gitBranchResult (some "fatal: not a git repository") "" =
      .error "fatal: not a git repository" ∧
    gitFetchCherryResult (some "fetch failed") none "" = .error "fetch failed" ∧
    gitFetchCherryResult none (some "fatal: unknown commit") "" = .ok [] :=
  ⟨rfl, rfl, rfl⟩

/-- C10: for a non-empty commit list, a theme whose name has no
`" - "` separator but itself matches `stage`/`staging` (e.g. a theme
named exactly `"STAGE"`) qualifies in the staging search and is
selected when reached: its commit token defaults to `""`, which
`str.indexOf` finds in every commit message; only the `develop`
freshness check can still reject it. -/
theorem C10_bare_stage_theme_matches
    (t : Theme) (rest : List Theme) (c0 : String) (cs0 : List String)
    (nl7 : Bool) (now : Int)
    (hsep : strContains t.name " - " = false)
    (hst : reStaging t.name = true)
    (hfresh : nl7 = true → ¬ t.updatedAt < now - sevenDaysMs) :
    themeStep (c0 :: cs0) nl7 now t = .ok true ∧
    isAlreadyDeployedThemeForBranch (t :: rest) (c0 :: cs0) nl7 now = .ok (some t) := by
  have hq : themeStep (c0 :: cs0) nl7 now t = .ok true := by
    unfold themeStep
    rw [themeCommitToken_no_sep t.name hsep, themeEnvTag_no_sep t.name hsep, hst]
    simp only [Bool.not_true, Bool.false_eq_true, if_false]
    rw [List.any_cons, strContains_empty c0]
    simp only [Bool.true_or, Bool.not_true, Bool.false_eq_true, if_false]
    cases hn : nl7 with
    | false => rfl
    | true =>
      rw [if_neg (hfresh hn)]
      rfl
  refine ⟨hq, ?_⟩
  unfold isAlreadyDeployedThemeForBranch
  rw [hq]

/-- Witness for C10: a theme named exactly `"STAGE"` is selected even
under the `develop` freshness flag when fresh. -/
theorem C10_bare_stage_theme_matches_witness :
    themeStep ["some commit"] true 100 ⟨.num 9, "STAGE", "other", 100⟩ = .ok true ∧
    isAlreadyDeployedThemeForBranch [⟨.num 9, "STAGE", "other", 100⟩]
      ["some commit"] true 100 = .ok (some ⟨.num 9, "STAGE", "other", 100⟩) :=
  C10_bare_stage_theme_matches ⟨.num 9, "STAGE", "other", 100⟩ [] "some commit" []
    true 100 (by decide) (by decide) (by decide)

/-- C1 counterexample: with the `BASE_THEME` override configured, a
feature branch with no staging match does NOT duplicate: `getBase`
finds the override artifact but returns it as a raw non-promise value
(src/index.js:271), so `duplicateCurrentBase`'s `.then` on it
(src/index.js:258) throws a TypeError — the run crashes with no
download, no create-new and no deploy, refuting the claim's
base-selection-then-duplication-then-deploy behaviour there. -/
theorem C1_counterexample :
    mainDispatch ⟨"backup", false, some (.str "123")⟩
      ⟨"feature/login",
        [⟨.num 1, "LIVE - x", "main", 0⟩, ⟨.num 123, "DEV - y", "other", 0⟩],
        ["msg (zz)"], 0, true, some (.num 77)⟩ = ([], .error .crashed) := by
  decide

/-- C1 (amended): on a branch matching feature/hotfix/bugfix
(case-insensitive) with no qualifying staging artifact and NO explicit
base id override configured, the planner selects a base, duplicates it
(download then create-new), and deploys to the id read back for the
newly created artifact — the trace is exactly
`[download base, create-new, deploy newId]`, so no deploy ever targets
a pre-existing artifact directly on this path.  (With `BASE_THEME`
set, the chain instead crashes at the `.then` on `getBase`'s raw
return before any duplication call — see the counterexample.) -/
theorem C1_feature_no_match_duplicates
    (cfg : Config) (inp : RunInput) (b : Theme) (nid : JsId)
    (hbr : strContainsCI inp.branch "feature" = true ∨
      strContainsCI inp.branch "hotfix" = true ∨
      strContainsCI inp.branch "bugfix" = true)
    (hq : cfg.isQuickTest = false)
    (hbt : cfg.baseTheme = none)
    (hnone : isAlreadyDeployedThemeForBranch inp.themes inp.commits
      (strContains inp.branch "develop") inp.now = .ok none)
    (hbase : getBase cfg.baseTheme inp.themes false = .ok (some b))
    (hnid : inp.newThemeId = some nid) :
    mainDispatch cfg inp =
      ([.download b.id, .themeNew, .deploy (.id nid)], .ok ()) := by
  have hfe : reFeatureEtc inp.branch = true := by
    unfold reFeatureEtc
    rcases hbr with h | h | h <;> rw [h] <;> simp
  have hdup : duplicateCurrentBase cfg inp false =
      ([.download b.id, .themeNew], .ok nid) := by
    unfold duplicateCurrentBase
    rw [hbase, hbt, hq, hnid]
    rfl
  unfold mainDispatch
  rw [hfe, hnone, hdup]
  rfl

/-- Witness for C1: a feature branch, one live published theme, no
override, no staging match; the planner downloads the base, creates
the new theme and deploys to the id read back from the scratch
config. -/
theorem C1_feature_no_match_duplicates_witness :
    mainDispatch ⟨"backup", false, none⟩
      ⟨"feature/login", [⟨.num 1, "LIVE - x", "main", 0⟩], ["msg (zz)"], 0, true,
        some (.num 77)⟩ =
      ([.download (.num 1), .themeNew, .deploy (.id (.num 77))], .ok ()) :=
  C1_feature_no_match_duplicates _ _ ⟨.num 1, "LIVE - x", "main", 0⟩ (.num 77)
    (Or.inl (by decide)) rfl rfl (by decide) (by decide) rfl

/-- C2: on branch `develop` the staging search runs with the 7-day
freshness flag: a qualifying staging theme last updated strictly more
than 7 days before now is rejected (the search moves past it, and with
no other match the planner falls through to duplication), while an
otherwise identical theme updated within the last 7 days is accepted
and selected. -/
theorem C2_develop_freshness
    (branch : String) (t : Theme) (rest : List Theme) (commits : List String)
    (now : Int) (ctok : String) (cfg : Config) (tmpE : Bool) (nti : Option JsId)
    (hb : branch = "develop")
    (hst : reStaging (themeEnvTag t.name) = true)
    (htok : themeCommitToken t.name = .ok ctok)
    (hmatch : (commits.any fun str => strContains str ctok) = true) :
    (t.updatedAt < now - sevenDaysMs →
      isAlreadyDeployedThemeForBranch (t :: rest) commits (strContains branch "develop") now =
        isAlreadyDeployedThemeForBranch rest commits (strContains branch "develop") now) ∧
    (¬ t.updatedAt < now - sevenDaysMs →
      isAlreadyDeployedThemeForBranch (t :: rest) commits (strContains branch "develop") now =
        .ok (some t)) ∧
    (t.updatedAt < now - sevenDaysMs →
      isAlreadyDeployedThemeForBranch rest commits (strContains branch "develop") now = .ok none →
      mainDispatch cfg ⟨branch, t :: rest, commits, now, tmpE, nti⟩ =
        match duplicateCurrentBase cfg ⟨branch, t :: rest, commits, now, tmpE, nti⟩ false with
        | (es, .error s) => (es, .error s)
        | (es, .ok nid) => (es ++ [ExtCall.deploy (.id nid)], .ok ())) := by
  subst hb
  have hnl : strContains "develop" "develop" = true := by decide
  rw [hnl]
  have hstep : themeStep commits true now t =
      if t.updatedAt < now - sevenDaysMs then Except.ok false else Except.ok true := by
    unfold themeStep
    rw [htok]
    simp only [hst, hmatch, Bool.not_true, Bool.false_eq_true, if_false, if_true]
  refine ⟨?_, ?_, ?_⟩
  · intro hlt
    conv_lhs => unfold isAlreadyDeployedThemeForBranch
    rw [hstep, if_pos hlt]
  · intro hge
    conv_lhs => unfold isAlreadyDeployedThemeForBranch
    rw [hstep, if_neg hge]
  · intro hlt hrest
    have h1 : isAlreadyDeployedThemeForBranch (t :: rest) commits true now = .ok none := by
      conv_lhs => unfold isAlreadyDeployedThemeForBranch
      rw [hstep, if_pos hlt]
      exact hrest
    have hfe : reFeatureEtc "develop" = true := by decide
    unfold mainDispatch
    simp only [hfe, hnl, h1, if_true]

/-- Witness for C2: the same staging theme for `develop` is rejected
when 8+ days stale and selected when 6 days fresh (now = 10^12 ms,
seven days = 6.048·10^8 ms). -/
theorem C2_develop_freshness_witness :
    isAlreadyDeployedThemeForBranch [⟨.num 9, "STAGE - x (aabbcc)", "other", 0⟩]
      ["fix aabbcc stuff"] (strContains "develop" "develop") 1000000000000 = .ok none ∧
    isAlreadyDeployedThemeForBranch [⟨.num 9, "STAGE - x (aabbcc)", "other", 999600000000⟩]
      ["fix aabbcc stuff"] (strContains "develop" "develop") 1000000000000 =
      .ok (some ⟨.num 9, "STAGE - x (aabbcc)", "other", 999600000000⟩) := by
  constructor
  · exact ((C2_develop_freshness "develop" ⟨.num 9, "STAGE - x (aabbcc)", "other", 0⟩ []
      ["fix aabbcc stuff"] 1000000000000 "aabbcc" ⟨"backup", false, none⟩ true none
      rfl (by decide) (by decide) (by decide)).1 (by decide)).trans rfl
  · exact (C2_develop_freshness "develop"
      ⟨.num 9, "STAGE - x (aabbcc)", "other", 999600000000⟩ []
      ["fix aabbcc stuff"] 1000000000000 "aabbcc" ⟨"backup", false, none⟩ true none
      rfl (by decide) (by decide) (by decide)).2.1 (by decide)

/-- C7: on a `master` branch that does not match the Path-A patterns:
`STAGE=backup` duplicates the forced-published base and makes no
deploy call; `STAGE=deploy` deploys directly to the forced-published
base and makes no duplication (download / create-new) call; any other
`STAGE` value does neither. -/
theorem C7_master_stage_dispatch
    (inp : RunInput) (s : String) (m : Theme) (nid : JsId)
    (hmaster : reMaster inp.branch = true)
    (hnfe : reFeatureEtc inp.branch = false)
    (hs1 : s ≠ "backup") (hs2 : s ≠ "deploy")
    (hbase : getBase none inp.themes true = .ok (some m))
    (hnid : inp.newThemeId = some nid) :
    mainDispatch ⟨"backup", false, none⟩ inp = ([.download m.id, .themeNew], .ok ()) ∧
    mainDispatch ⟨"deploy", false, none⟩ inp = ([.deploy (.obj m)], .ok ()) ∧
    mainDispatch ⟨s, false, none⟩ inp = ([], .ok ()) := by
  have hb1 : (s == "backup") = false := beq_eq_false_iff_ne.mpr hs1
  have hb2 : (s == "deploy") = false := beq_eq_false_iff_ne.mpr hs2
  have hdup : duplicateCurrentBase ⟨"backup", false, none⟩ inp true =
      ([.download m.id, .themeNew], .ok nid) := by
    unfold duplicateCurrentBase
    simp only [hbase, hnid]
    rfl
  refine ⟨?_, ?_, ?_⟩
  · unfold mainDispatch
    simp only [hnfe, hmaster, hdup, Bool.false_eq_true, if_false]
    rfl
  · unfold mainDispatch
    simp only [hnfe, hmaster, hbase, Bool.false_eq_true, if_false]
    rfl
  · unfold mainDispatch
    simp only [hnfe, hmaster, hb1, hb2, Bool.false_eq_true, if_false,
      Bool.and_false]

/-- Witness for C7: branch `master`, a single live published theme;
backup mode yields download+create only, deploy mode yields one direct
deploy of the published theme object, stage `other` does nothing. -/
theorem C7_master_stage_dispatch_witness :
    mainDispatch ⟨"backup", false, none⟩
      ⟨"master", [⟨.num 1, "LIVE - x", "main", 5⟩], [], 0, true, some (.num 77)⟩ =
      ([.download (.num 1), .themeNew], .ok ()) ∧
    mainDispatch ⟨"deploy", false, none⟩
      ⟨"master", [⟨.num 1, "LIVE - x", "main", 5⟩], [], 0, true, some (.num 77)⟩ =
      ([.deploy (.obj ⟨.num 1, "LIVE - x", "main", 5⟩)], .ok ()) ∧
    mainDispatch ⟨"other", false, none⟩
      ⟨"master", [⟨.num 1, "LIVE - x", "main", 5⟩], [], 0, true, some (.num 77)⟩ =
      ([], .ok ()) :=
  C7_master_stage_dispatch _ "other" ⟨.num 1, "LIVE - x", "main", 5⟩ (.num 77)
    (by decide) (by decide) (by decide) (by decide) (by decide) rfl

/-- C8: with quick-test set, the run's trace never contains the theme
download, the new-artifact creation, or either scratch-directory
deletion (first conjunct, for ALL inputs — including the
`BASE_THEME`-set runs, which crash identically with or without
quick-test at the `.then` on `getBase`'s raw return), while branch
classification, the staging search and base selection still drive the
run: a found staging theme is deployed to, and on no match (with no
override configured) the new id obtained under base selection is
deployed to. -/
theorem C8_quick_test_frame
    (cfg : Config) (inp : RunInput) (t : Theme) (b? : Option Theme) (nid : JsId)
    (hq : cfg.isQuickTest = true) :
    ((run cfg inp).1.filter isQuickSkippedCall = []) ∧
    (inp.tmpExisted = true → reFeatureEtc inp.branch = true →
      isAlreadyDeployedThemeForBranch inp.themes inp.commits
        (strContains inp.branch "develop") inp.now = .ok (some t) →
      run cfg inp = ([.deploy (.id t.id)], .done)) ∧
    (inp.tmpExisted = true → reFeatureEtc inp.branch = true →
      isAlreadyDeployedThemeForBranch inp.themes inp.commits
        (strContains inp.branch "develop") inp.now = .ok none →
      cfg.baseTheme = none →
      getBase cfg.baseTheme inp.themes false = .ok b? →
      inp.newThemeId = some nid →
      run cfg inp = ([.deploy (.id nid)], .done)) := by
  refine ⟨run_quick_calls cfg inp hq, ?_, ?_⟩
  · intro htmp hfe hfound
    have hmd : mainDispatch cfg inp = ([.deploy (.id t.id)], .ok ()) := by
      unfold mainDispatch
      rw [hfe, hfound]
      rfl
    unfold run
    rw [hq, htmp, hmd, prepCalls_quick cfg inp hq]
    rfl
  · intro htmp hfe hnone hbt hgb hnid
    have hdup : duplicateCurrentBase cfg inp false = ([], .ok nid) := by
      unfold duplicateCurrentBase
      rw [hgb, hbt, hq, hnid]
      rfl
    have hmd : mainDispatch cfg inp = ([.deploy (.id nid)], .ok ()) := by
      unfold mainDispatch
      rw [hfe, hnone, hdup]
      rfl
    unfold run
    rw [hq, htmp, hmd, prepCalls_quick cfg inp hq]
    rfl

/-- Witness for C8: a quick-test run on a feature branch with no
staging match makes exactly one external call — the deploy to the id
read back from the scratch config. -/
theorem C8_quick_test_frame_witness :
    ((run ⟨"backup", true, none⟩
      ⟨"feature/a", [⟨.num 1, "LIVE - x", "main", 0⟩], ["m"], 0, true,
        some (.num 77)⟩).1.filter isQuickSkippedCall = []) ∧
    run ⟨"backup", true, none⟩
      ⟨"feature/a", [⟨.num 1, "LIVE - x", "main", 0⟩], ["m"], 0, true,
        some (.num 77)⟩ = ([.deploy (.id (.num 77))], .done) := by
  have h := C8_quick_test_frame ⟨"backup", true, none⟩
    ⟨"feature/a", [⟨.num 1, "LIVE - x", "main", 0⟩], ["m"], 0, true, some (.num 77)⟩
    ⟨.num 1, "LIVE - x", "main", 0⟩ (some ⟨.num 1, "LIVE - x", "main", 0⟩) (.num 77) rfl
  exact ⟨h.1, h.2.2 rfl (by decide) (by decide) rfl (by decide) rfl⟩

/-- C9: with no explicit base id, `forcePublished` unset, a published
theme whose tag is neither live nor stage, and no live/stage-tagged
theme at all, `getBase` ends the process via `process.exit` (a fatal
outcome distinct from a rejected operation), and the cleanup step
never appears in the trace. -/
theorem C9_base_selection_fatal_exit
    (cfg : Config) (inp : RunInput) (m : Theme)
    (hm : inp.themes.find? (fun t => t.role == "main") = some m)
    (henv : reLiveStage (themeEnvTag m.name) = false)
    (hnone : inp.themes.find? (fun t => reLiveStage (themeEnvTag t.name)) = none)
    (hbt : cfg.baseTheme = none)
    (hq : cfg.isQuickTest = false)
    (hfe : reFeatureEtc inp.branch = true)
    (hsearch : isAlreadyDeployedThemeForBranch inp.themes inp.commits
      (strContains inp.branch "develop") inp.now = .ok none) :
    getBase cfg.baseTheme inp.themes false = .error .exitFatal ∧
    (run cfg inp).2 = .exitFatal ∧
    ExtCall.rmTmpPost ∉ (run cfg inp).1 := by
  have hgb : getBase cfg.baseTheme inp.themes false = .error .exitFatal := by
    rw [hbt]
    unfold getBase
    rw [hm]
    simp [henv, hnone]
  have hdup : duplicateCurrentBase cfg inp false = ([], .error .exitFatal) := by
    unfold duplicateCurrentBase
    rw [hgb]
  have hmd : mainDispatch cfg inp = ([], .error .exitFatal) := by
    unfold mainDispatch
    rw [hfe, hsearch, hdup]
    rfl
  have hrun : run cfg inp = (prepCalls cfg inp ++ [], .exitFatal) := by
    unfold run
    rw [hq, hmd]
    rfl
  refine ⟨hgb, by rw [hrun], ?_⟩
  rw [hrun]
  unfold prepCalls
  rw [hq]
  cases inp.tmpExisted <;> simp

/-- Witness for C9: a feature branch, a single `DEV`-tagged published
theme and nothing live/stage-tagged; the run exits fatally and never
reaches cleanup. -/
theorem C9_base_selection_fatal_exit_witness :
    getBase (Config.baseTheme ⟨"backup", false, none⟩)
      [⟨.num 1, "DEV - x", "main", 0⟩] false = .error .exitFatal ∧
    (run ⟨"backup", false, none⟩
      ⟨"feature/a", [⟨.num 1, "DEV - x", "main", 0⟩], ["m"], 0, false, none⟩).2 =
      .exitFatal ∧
    ExtCall.rmTmpPost ∉ (run ⟨"backup", false, none⟩
      ⟨"feature/a", [⟨.num 1, "DEV - x", "main", 0⟩], ["m"], 0, false, none⟩).1 :=
  C9_base_selection_fatal_exit ⟨"backup", false, none⟩
    ⟨"feature/a", [⟨.num 1, "DEV - x", "main", 0⟩], ["m"], 0, false, none⟩
    ⟨.num 1, "DEV - x", "main", 0⟩
    (by decide) (by decide) (by decide) rfl rfl (by decide) (by decide)

end ShopifyDeploy
